import Mathlib

/-!
Verification development for the divvit receipt-scanning backend.

The embedding models, faithfully to the Python source:
  - `json_loads`  : the structural JSON parser used by `json.loads` (numbers
    are kept as their lexemes, since no property depends on numeric value;
    duplicate object keys are kept in order, which is irrelevant to the
    properties proved here, all of which concern parse success/failure and
    verbatim propagation);
  - `geminiNormalize` / `parse_receipt` : `GeminiService.parse_receipt`
    (app/services/gemini.py), with the two external effects - PIL image
    verification and the Gemini API call - as explicit oracle parameters;
  - `scan_receipt` : the `/scan` endpoint (app/api/endpoints/receipts.py);
  - `buildSettings` / `get_settings` : the pydantic settings loader
    (app/core/config.py), with the `lru_cache` state threaded explicitly.

Strings are processed as `List Char`; `pyStrip` models Python `str.strip()`
on the ASCII whitespace characters (wider Unicode whitespace never occurs in
the properties considered).
-/

/-- The backtick character, used by markdown code fences. -/
def backtick : Char := Char.ofNat 96

/-- Left curly brace. -/
def lbrace : Char := Char.ofNat 123

/-- Right curly brace. -/
def rbrace : Char := Char.ofNat 125

/-- ASCII whitespace stripped by Python `str.strip()`:
space, tab, newline, carriage return, form feed, vertical tab. -/
def pyIsSpace (c : Char) : Bool :=
  c = ' ' || c = '\t' || c = '\n' || c = '\r' || c = Char.ofNat 12 || c = Char.ofNat 11

/-- Drop leading characters satisfying `p`. -/
def dropLeading (p : Char → Bool) : List Char → List Char
  | [] => []
  | c :: cs => if p c then dropLeading p cs else c :: cs

/-- Python `str.strip()`: remove leading and trailing whitespace. -/
def pyStrip (cs : List Char) : List Char :=
  ((dropLeading pyIsSpace ((dropLeading pyIsSpace cs.reverse)).reverse))

/-- Python `str.split("\n")`: split on newline, keeping empty parts
(`"".split("\n") == [""]`). -/
def splitNL : List Char → List (List Char)
  | [] => [[]]
  | c :: cs =>
    if c = '\n' then [] :: splitNL cs
    else
      match splitNL cs with
      | [] => [[c]]
      | h :: t => (c :: h) :: t

/-- Python `"\n".join(parts)`. -/
def joinNL : List (List Char) → List Char
  | [] => []
  | [l] => l
  | l :: ls => l ++ '\n' :: joinNL ls

/-- Python `text.startswith("```")` (three backticks). -/
def startsWithFence : List Char → Bool
  | a :: b :: c :: _ => a = backtick && b = backtick && c = backtick
  | _ => false

/-- A JSON value as produced by `json.loads`.  Number lexemes are kept
verbatim (Python would convert them to int/float; no property proved here
depends on the numeric value, only on structural validity and verbatim
propagation). -/
inductive Json where
  | null : Json
  | bool (b : Bool) : Json
  | num (lexeme : String) : Json
  | str (s : String) : Json
  | arr (elems : List Json) : Json
  | obj (fields : List (String × Json)) : Json

/-- JSON insignificant whitespace (the set skipped by Python's json scanner). -/
def jsonWs (c : Char) : Bool :=
  c = ' ' || c = '\t' || c = '\n' || c = '\r'

/-- Skip JSON whitespace. -/
def skipWs : List Char → List Char
  | [] => []
  | c :: cs => if jsonWs c then skipWs cs else c :: cs

/-- If `lit` is a prefix of the input, return the rest. -/
def dropLit : List Char → List Char → Option (List Char)
  | [], cs => some cs
  | _ :: _, [] => none
  | l :: ls, c :: cs => if c = l then dropLit ls cs else none

/-- Hex digit value. -/
def hexVal (c : Char) : Option Nat :=
  if '0' ≤ c ∧ c ≤ '9' then some (c.toNat - '0'.toNat)
  else if 'a' ≤ c ∧ c ≤ 'f' then some (c.toNat - 'a'.toNat + 10)
  else if 'A' ≤ c ∧ c ≤ 'F' then some (c.toNat - 'A'.toNat + 10)
  else none

/-- Parse the body of a JSON string literal (after the opening quote),
returning the decoded string and the input after the closing quote.
Mirrors Python's strict scanner: raw control characters are rejected,
escapes are `\" \\ \/ \b \f \n \r \t \uXXXX`. -/
def parseStringBody : List Char → List Char → Except String (String × List Char)
  | _, [] => .error "Unterminated string"
  | acc, c :: cs =>
    if c = '"' then .ok (String.mk acc.reverse, cs)
    else if c = '\\' then
      match cs with
      | [] => .error "Unterminated string"
      | e :: cs2 =>
        if e = '"' then parseStringBody ('"' :: acc) cs2
        else if e = '\\' then parseStringBody ('\\' :: acc) cs2
        else if e = '/' then parseStringBody ('/' :: acc) cs2
        else if e = 'b' then parseStringBody (Char.ofNat 8 :: acc) cs2
        else if e = 'f' then parseStringBody (Char.ofNat 12 :: acc) cs2
        else if e = 'n' then parseStringBody ('\n' :: acc) cs2
        else if e = 'r' then parseStringBody ('\r' :: acc) cs2
        else if e = 't' then parseStringBody ('\t' :: acc) cs2
        else if e = 'u' then
          match cs2 with
          | h1 :: h2 :: h3 :: h4 :: cs3 =>
            match hexVal h1, hexVal h2, hexVal h3, hexVal h4 with
            | some a, some b, some c1, some d =>
              parseStringBody (Char.ofNat (a * 4096 + b * 256 + c1 * 16 + d) :: acc) cs3
            | _, _, _, _ => .error "Invalid \\uXXXX escape"
          | _ => .error "Invalid \\uXXXX escape"
        else .error "Invalid \\escape"
    else if c.toNat < 32 then .error "Invalid control character"
    else parseStringBody (c :: acc) cs

/-- Take a maximal run of decimal digits. -/
def takeDigits : List Char → (List Char × List Char)
  | [] => ([], [])
  | c :: cs =>
    if '0' ≤ c ∧ c ≤ '9' then
      let (ds, rest) := takeDigits cs
      (c :: ds, rest)
    else ([], c :: cs)

/-- Optionally consume a complete fraction part `\.\d+`; if the dot is not
followed by a digit, consume nothing (regex maximal munch with backtracking). -/
def lexFrac (intPart : List Char) (cs : List Char) : List Char × List Char :=
  match cs with
  | '.' :: d :: rest =>
    if '0' ≤ d ∧ d ≤ '9' then
      let (ds, rest2) := takeDigits rest
      (intPart ++ '.' :: d :: ds, rest2)
    else (intPart, cs)
  | _ => (intPart, cs)

/-- Optionally consume a complete exponent part `[eE][+-]?\d+`; if incomplete,
consume nothing. -/
def lexExp (mantissa : List Char) (cs : List Char) : List Char × List Char :=
  match cs with
  | e :: rest =>
    if e = 'e' || e = 'E' then
      let (sgn, rest1) :=
        match rest with
        | '+' :: r => (['+'], r)
        | '-' :: r => (['-'], r)
        | _ => (([] : List Char), rest)
      match rest1 with
      | d :: rest2 =>
        if '0' ≤ d ∧ d ≤ '9' then
          let (ds, rest3) := takeDigits rest2
          (mantissa ++ e :: (sgn ++ d :: ds), rest3)
        else (mantissa, cs)
      | [] => (mantissa, cs)
    else (mantissa, cs)
  | [] => (mantissa, [])

/-- Lex a JSON number per the grammar used by Python's json module
(`-?(0|[1-9]\d*)(\.\d+)?([eE][+-]?\d+)?`, maximal munch with the optional
groups taken only when complete).  Returns the lexeme and the rest. -/
def lexNumber (cs : List Char) : Except String (List Char × List Char) :=
  let (sign, cs1) :=
    match cs with
    | '-' :: rest => (['-'], rest)
    | _ => (([] : List Char), cs)
  match cs1 with
  | [] => .error "Expecting value"
  | c :: rest =>
    if c = '0' then
      let (m, r) := lexFrac (sign ++ ['0']) rest
      .ok (lexExp m r)
    else if '1' ≤ c ∧ c ≤ '9' then
      let (ds, rest2) := takeDigits rest
      let (m, r) := lexFrac (sign ++ c :: ds) rest2
      .ok (lexExp m r)
    else .error "Expecting value"

mutual

/-- Parse one JSON value (after skipping leading whitespace), returning the
value and the unconsumed rest.  `fuel` only bounds recursion depth; it is
chosen large enough in `json_loads` that exhaustion is unreachable. -/
def parseValue : Nat → List Char → Except String (Json × List Char)
  | 0, _ => .error "Expecting value"
  | fuel + 1, cs =>
    match skipWs cs with
    | [] => .error "Expecting value"
    | c :: rest =>
      if c = '"' then
        match parseStringBody [] rest with
        | .error e => .error e
        | .ok (s, r) => .ok (Json.str s, r)
      else if c = lbrace then
        match skipWs rest with
        | [] => .error "Expecting property name enclosed in double quotes"
        | c2 :: r2 =>
          if c2 = rbrace then .ok (Json.obj [], r2)
          else parseMembers fuel (c2 :: r2) []
      else if c = '[' then
        match skipWs rest with
        | [] => .error "Expecting value"
        | c2 :: r2 =>
          if c2 = ']' then .ok (Json.arr [], r2)
          else parseElems fuel (c2 :: r2) []
      else
        match dropLit ("true".data) (c :: rest) with
        | some r => .ok (Json.bool true, r)
        | none =>
        match dropLit ("false".data) (c :: rest) with
        | some r => .ok (Json.bool false, r)
        | none =>
        match dropLit ("null".data) (c :: rest) with
        | some r => .ok (Json.null, r)
        | none =>
        match dropLit ("NaN".data) (c :: rest) with
        | some r => .ok (Json.num "NaN", r)
        | none =>
        match dropLit ("Infinity".data) (c :: rest) with
        | some r => .ok (Json.num "Infinity", r)
        | none =>
        match dropLit ("-Infinity".data) (c :: rest) with
        | some r => .ok (Json.num "-Infinity", r)
        | none =>
        match lexNumber (c :: rest) with
        | .error e => .error e
        | .ok (lexeme, r) => .ok (Json.num (String.mk lexeme), r)

/-- Parse the elements of a non-empty JSON array (input starts at the first
element); `acc` holds the elements already parsed, in order. -/
def parseElems : Nat → List Char → List Json → Except String (Json × List Char)
  | 0, _, _ => .error "Expecting value"
  | fuel + 1, cs, acc =>
    match parseValue fuel cs with
    | .error e => .error e
    | .ok (v, rest) =>
      match skipWs rest with
      | [] => .error "Expecting comma delimiter"
      | c :: r =>
        if c = ']' then .ok (Json.arr (acc ++ [v]), r)
        else if c = ',' then parseElems fuel r (acc ++ [v])
        else .error "Expecting comma delimiter"

/-- Parse the members of a non-empty JSON object (input starts at the first
key); `acc` holds the members already parsed, in order. -/
def parseMembers : Nat → List Char → List (String × Json) →
    Except String (Json × List Char)
  | 0, _, _ => .error "Expecting value"
  | fuel + 1, cs, acc =>
    match skipWs cs with
    | [] => .error "Expecting property name enclosed in double quotes"
    | c :: rest =>
      if c = '"' then
        match parseStringBody [] rest with
        | .error e => .error e
        | .ok (k, r2) =>
          match skipWs r2 with
          | [] => .error "Expecting colon delimiter"
          | c3 :: r3 =>
            if c3 = ':' then
              match parseValue fuel r3 with
              | .error e => .error e
              | .ok (v, r4) =>
                match skipWs r4 with
                | [] => .error "Expecting comma delimiter"
                | c5 :: r5 =>
                  if c5 = rbrace then .ok (Json.obj (acc ++ [(k, v)]), r5)
                  else if c5 = ',' then parseMembers fuel r5 (acc ++ [(k, v)])
                  else .error "Expecting comma delimiter"
            else .error "Expecting colon delimiter"
      else .error "Expecting property name enclosed in double quotes"

end

/-- Python `json.loads`: parse a whole document; any unconsumed non-whitespace
suffix is an error ("Extra data"). -/
def json_loads (cs : List Char) : Except String Json :=
  match parseValue (2 * cs.length + 8) cs with
  | .error e => .error e
  | .ok (j, rest) => if skipWs rest = [] then .ok j else .error "Extra data"

/-! ## GeminiService (app/services/gemini.py) -/

/-- The failure taxonomy of `GeminiService.parse_receipt`:
`invalidImage` and `malformedResponse` are raised as Python `ValueError`,
`upstreamError` as `RuntimeError`.  Each constructor carries the underlying
cause; the full exception message is `GeminiError.message`. -/
inductive GeminiError where
  | invalidImage (cause : String) : GeminiError
  | malformedResponse (cause : String) : GeminiError
  | upstreamError (cause : String) : GeminiError

/-- The Python exception message (`str(e)`) of each failure. -/
def GeminiError.message : GeminiError → String
  | .invalidImage e => "Invalid image file: " ++ e
  | .malformedResponse e => "Failed to parse Gemini response as JSON: " ++ e
  | .upstreamError e => "Gemini API error: " ++ e

/-- Whether the raised exception is a `ValueError` (caught separately by the
endpoint); `upstreamError` is a `RuntimeError`. -/
def GeminiError.isValueError : GeminiError → Bool
  | .upstreamError _ => false
  | _ => true

/-- Response normalization in `parse_receipt` (gemini.py lines 87-93):
`response.text.strip()`; if the stripped text starts with three backticks,
split on newlines, drop the first and last line, and rejoin. -/
def geminiNormalize (text : List Char) : List Char :=
  let t := pyStrip text
  if startsWithFence t then joinNL (((splitNL t).drop 1).dropLast)
  else t

/-- `GeminiService.parse_receipt` (gemini.py lines 27-101).  The two external
effects are oracle parameters:
`pilVerify` models `Image.open(io.BytesIO(image_data)); image.verify()`
(`.error reason` when PIL raises), and `upstream` models the
`generate_content` call (`.error cause` when the SDK raises, `.ok text` for
`response.text`).  `content_type` is forwarded to the upstream request and
affects nothing else, exactly as in the source. -/
def parse_receipt (pilVerify : List Nat → Except String Unit)
    (upstream : Except String String)
    (content_type : String) (image_data : List Nat) : Except GeminiError Json :=
  match pilVerify image_data with
  | .error e => .error (.invalidImage e)
  | .ok _ =>
    match upstream with
    | .error e => .error (.upstreamError e)
    | .ok text =>
      match json_loads (geminiNormalize text.data) with
      | .error e => .error (.malformedResponse e)
      | .ok result => .ok result

/-! ## The /scan endpoint (app/api/endpoints/receipts.py) -/

/-- The allowed upload content types (receipts.py line 43). -/
def allowed_types : List String :=
  ["image/jpeg", "image/png", "image/webp", "image/heic"]

/-- Detail string of the content-type rejection (receipts.py lines 45-48). -/
def invalidTypeDetail : String :=
  "Invalid file type. Allowed types: " ++ String.intercalate ", " allowed_types

/-- The HTTP outcome of the endpoint: a 200 with the parsed body returned
verbatim, or an HTTPException with status code and detail string. -/
inductive ScanResponse where
  | success (body : Json) : ScanResponse
  | failure (status : Nat) (detail : String) : ScanResponse

/-- The body of the endpoint's try block and its exception mapping
(receipts.py lines 50-66): `ValueError` becomes 400 with `str(e)`, any other
exception becomes 500 with a generic wrapped message. -/
def handleUpload (pilVerify : List Nat → Except String Unit)
    (upstream : Except String String)
    (content_type : String) (contents : List Nat) : ScanResponse :=
  match parse_receipt pilVerify upstream content_type contents with
  | .ok result => .success result
  | .error e =>
    if e.isValueError then .failure 400 e.message
    else .failure 500 ("Failed to process receipt: " ++ e.message)

/-- `scan_receipt` (receipts.py lines 31-66): reject a content type outside
`allowed_types` with a 400 before the body is read or the service invoked;
otherwise read the bytes and delegate to the service. -/
def scan_receipt (pilVerify : List Nat → Except String Unit)
    (upstream : Except String String)
    (content_type : String) (fileBytes : List Nat) : ScanResponse :=
  if content_type ∈ allowed_types then
    handleUpload pilVerify upstream content_type fileBytes
  else .failure 400 invalidTypeDetail

/-! ## Settings (app/core/config.py) -/

/-- The settings record (config.py lines 10-27). -/
structure Settings where
  gemini_api_key : String
  app_name : String
  debug : Bool
  port : Int
deriving DecidableEq

/-- The field defaults of `Settings`. -/
def defaultSettings : Settings :=
  { gemini_api_key := "", app_name := "Divvit Backend", debug := false, port := 8080 }

/-- The environment variable names recognized by `Settings`
(pydantic derives them from the field names; matching is case-insensitive
because of `case_sensitive = False`). -/
def recognizedNames : List String :=
  ["gemini_api_key", "app_name", "debug", "port"]

/-- Lowercase the ASCII letters of a string, character by character. -/
def lowerChars (cs : List Char) : List Char :=
  cs.map Char.toLower

/-- Case-insensitive environment lookup (first match), modelling pydantic's
`case_sensitive = False` variable resolution. -/
def lookupEnvCI (env : List (String × String)) (name : String) : Option String :=
  (env.find? (fun p => lowerChars p.1.data = lowerChars name.data)).map (fun p => p.2)

/-- pydantic's lenient string-to-bool coercion for `bool` fields. -/
def str_to_bool (s : String) : Option Bool :=
  let l := s.toLower
  if l = "true" ∨ l = "t" ∨ l = "yes" ∨ l = "y" ∨ l = "on" ∨ l = "1" then some true
  else if l = "false" ∨ l = "f" ∨ l = "no" ∨ l = "n" ∨ l = "off" ∨ l = "0" then some false
  else none

/-- String-to-int coercion for `int` fields (optional sign, decimal digits). -/
def str_to_int (s : String) : Option Int :=
  match s.data with
  | '-' :: ds => if ds ≠ [] ∧ ds.all (fun c => '0' ≤ c ∧ c ≤ '9') then
      some (-(Int.ofNat (digitsToNat ds))) else none
  | ds => if ds ≠ [] ∧ ds.all (fun c => '0' ≤ c ∧ c ≤ '9') then
      some (Int.ofNat (digitsToNat ds)) else none
where
  digitsToNat (ds : List Char) : Nat :=
    ds.foldl (fun acc c => acc * 10 + (c.toNat - '0'.toNat)) 0

/-- Constructing `Settings()` from the process environment: each recognized
variable is read case-insensitively, an absent one falls back to the field
default, any other variable is simply never consulted (`extra = "ignore"`);
an unparseable `debug` or `port` value is a pydantic validation error.
The optional `.env` file is not modelled (none exists in the repository). -/
def buildSettings (env : List (String × String)) : Except String Settings :=
  let debugParsed :=
    match lookupEnvCI env "debug" with
    | none => some false
    | some s => str_to_bool s
  let portParsed :=
    match lookupEnvCI env "port" with
    | none => some (8080 : Int)
    | some s => str_to_int s
  match debugParsed, portParsed with
  | some d, some p =>
    .ok { gemini_api_key := (lookupEnvCI env "gemini_api_key").getD ""
          app_name := (lookupEnvCI env "app_name").getD "Divvit Backend"
          debug := d
          port := p }
  | _, _ => .error "validation error"

/-- `get_settings` (config.py lines 30-36) with the `lru_cache` made
explicit: the cache cell is threaded in and out.  A populated cache is
returned as-is without consulting the environment; an empty cache constructs
the record once and stores it. -/
def get_settings (cache : Option Settings) (env : List (String × String)) :
    Except String (Settings × Option Settings) :=
  match cache with
  | some s => .ok (s, some s)
  | none =>
    match buildSettings env with
    | .ok s => .ok (s, some s)
    | .error e => .error e

/-- Python `a or b` on strings (`b` when `a` is empty, else `a`). -/
def pyOrStr (a b : String) : String :=
  if a = "" then b else a

/-- Exact-case `os.environ.get` (first match). -/
def osEnvGet (env : List (String × String)) (name : String) : Option String :=
  (env.find? (fun p => p.1 = name)).map (fun p => p.2)

/-- API-key resolution in `GeminiService.__init__` (gemini.py line 23):
`settings.gemini_api_key or os.environ.get("GEMINI_API_KEY", "")`. -/
def initApiKey (configured : String) (osEnv : List (String × String)) : String :=
  pyOrStr configured ((osEnvGet osEnv "GEMINI_API_KEY").getD "")

/-! ## The per-process request loop

`scanStateful` runs one request against the process state (the settings
cache): settings are resolved through `get_settings`, a fresh
`GeminiService` is constructed (resolving the API key), and the endpoint
logic runs with a deterministic upstream stub that may depend on the
resolved API key and the whole request. -/

/-- One request handled with fixed, already-resolved settings. -/
def scanWithSettings (osEnv : List (String × String))
    (pilVerify : List Nat → Except String Unit)
    (stub : String → String → List Nat → Except String String)
    (s : Settings) (content_type : String) (fileBytes : List Nat) : ScanResponse :=
  scan_receipt pilVerify (stub (initApiKey s.gemini_api_key osEnv) content_type fileBytes)
    content_type fileBytes

/-- One request handled against the process state, returning the response and
the updated settings cache. -/
def scanStateful (env osEnv : List (String × String))
    (pilVerify : List Nat → Except String Unit)
    (stub : String → String → List Nat → Except String String)
    (cache : Option Settings) (content_type : String) (fileBytes : List Nat) :
    Except String (ScanResponse × Option Settings) :=
  match get_settings cache env with
  | .error e => .error e
  | .ok (s, cache2) =>
    .ok (scanWithSettings osEnv pilVerify stub s content_type fileBytes, cache2)

/-! ## Helper lemmas -/

/-- A newline-free string is split into a single line. -/
lemma splitNL_of_no_newline (l : List Char) (h : '\n' ∉ l) : splitNL l = [l] := by
  induction l with
  | nil => rfl
  | cons c cs ih =>
    have hc : ¬ c = '\n' := fun he => h (he ▸ List.mem_cons_self c cs)
    have hcs : '\n' ∉ cs := fun hm => h (List.mem_cons_of_mem c hm)
    simp only [splitNL, if_neg hc, ih hcs]

/-- Splitting a newline-free segment followed by a newline peels one line. -/
lemma splitNL_append_newline (l cs : List Char) (h : '\n' ∉ l) :
    splitNL (l ++ '\n' :: cs) = l :: splitNL cs := by
  induction l with
  | nil => simp [splitNL]
  | cons c cl ih =>
    have hc : ¬ c = '\n' := fun he => h (he ▸ List.mem_cons_self c cl)
    have hcl : '\n' ∉ cl := fun hm => h (List.mem_cons_of_mem c hm)
    simp only [List.cons_append, splitNL, if_neg hc, List.append_eq, ih hcl]

/-- `joinNL` on a list of at least two lines. -/
lemma joinNL_cons_cons (a b : List Char) (t : List (List Char)) :
    joinNL (a :: b :: t) = a ++ '\n' :: joinNL (b :: t) := rfl

/-- Splitting on newline is the left inverse of joining newline-free lines. -/
lemma splitNL_joinNL (ls : List (List Char)) (hne : ls ≠ [])
    (h : ∀ l ∈ ls, '\n' ∉ l) : splitNL (joinNL ls) = ls := by
  induction ls with
  | nil => exact absurd rfl hne
  | cons l t ih =>
    cases t with
    | nil =>
      show splitNL (joinNL [l]) = [l]
      exact splitNL_of_no_newline l (h l (List.mem_cons_self l []))
    | cons l2 t2 =>
      rw [joinNL_cons_cons]
      rw [splitNL_append_newline l (joinNL (l2 :: t2)) (h l (List.mem_cons_self l _))]
      rw [ih (by simp) (fun x hx => h x (List.mem_cons_of_mem l hx))]

/-- A fence prefix survives appending. -/
lemma startsWithFence_append (l r : List Char) (h : startsWithFence l = true) :
    startsWithFence (l ++ r) = true := by
  match l with
  | [] => simp [startsWithFence] at h
  | [a] => simp [startsWithFence] at h
  | [a, b] => simp [startsWithFence] at h
  | a :: b :: c :: t =>
    simp only [startsWithFence] at h ⊢
    exact h

/-- Dropping the final element of a list that ends with a singleton. -/
lemma dropLast_append_singleton {α : Type} (xs : List α) (a : α) :
    (xs ++ [a]).dropLast = xs := by
  simp [List.dropLast_concat]

/-- Normalizing a fenced multi-line response drops exactly the first and the
last line. -/
lemma geminiNormalize_fenced (first last : List Char) (mid : List (List Char))
    (hf : startsWithFence first = true)
    (h1 : '\n' ∉ first) (h2 : ∀ l ∈ mid, '\n' ∉ l) (h3 : '\n' ∉ last)
    (hstrip : pyStrip (joinNL (first :: (mid ++ [last]))) = joinNL (first :: (mid ++ [last]))) :
    geminiNormalize (joinNL (first :: (mid ++ [last]))) = joinNL mid := by
  have hall : ∀ l ∈ (first :: (mid ++ [last]) : List (List Char)), '\n' ∉ l := by
    intro l hl
    rcases List.mem_cons.mp hl with h | h
    · exact h ▸ h1
    · rcases List.mem_append.mp h with h | h
      · exact h2 l h
      · have := List.mem_singleton.mp h
        exact this ▸ h3
  have hfence : startsWithFence (joinNL (first :: (mid ++ [last]))) = true := by
    cases hm : mid ++ [last] with
    | nil => exact absurd hm (by simp)
    | cons b t =>
      rw [joinNL_cons_cons]
      exact startsWithFence_append _ _ hf
  have hsplit : splitNL (joinNL (first :: (mid ++ [last]))) = first :: (mid ++ [last]) :=
    splitNL_joinNL _ (by simp) hall
  simp only [geminiNormalize]
  rw [hstrip, if_pos hfence, hsplit]
  simp only [List.drop_succ_cons, List.drop_zero, dropLast_append_singleton]

/-- The invalid-image and malformed-response exception messages can never
coincide (distinct fixed prefixes), whatever the causes. -/
lemma msg_invalid_ne_malformed (m m2 : String) :
    "Invalid image file: " ++ m ≠ "Failed to parse Gemini response as JSON: " ++ m2 := by
  intro h
  have hd : ("Invalid image file: " ++ m).data.head?
      = ("Failed to parse Gemini response as JSON: " ++ m2).data.head? := by rw [h]
  have e1 : ("Invalid image file: " ++ m).data.head? = some 'I' := rfl
  have e2 : ("Failed to parse Gemini response as JSON: " ++ m2).data.head? = some 'F' := rfl
  rw [e1, e2] at hd
  exact absurd hd (by decide)

/-! ## Claims -/

/-- C1: the response normalizer of `parse_receipt` trims surrounding
whitespace; a text starting with three backticks has its first and last line
removed before JSON parsing, and any other text is parsed as trimmed.  In
particular the fenced empty-items response yields the object with an empty
`items` array, and a raw JSON response yields exactly the object it denotes. -/
theorem claim_C1 (pilVerify : List Nat → Except String Unit) (img : List Nat)
    (ct : String) (t : String) (j : Json)
    (hpil : pilVerify img = .ok ())
    (hnf : startsWithFence (pyStrip t.data) = false)
    (hparse : json_loads (pyStrip t.data) = .ok j) :
    parse_receipt pilVerify (.ok "```json\n\x7b\"items\":[]\x7d\n```") ct img
      = .ok (Json.obj [("items", Json.arr [])])
    ∧ parse_receipt pilVerify (.ok t) ct img = .ok j := by
  constructor
  · simp only [parse_receipt, hpil]
    rfl
  · simp only [parse_receipt, hpil, geminiNormalize, hnf, Bool.false_eq_true, if_false, hparse]

/-- C1 witness: concrete instances of both conjuncts. -/
theorem claim_C1_witness :
    parse_receipt (fun _ => .ok ()) (.ok "```json\n\x7b\"items\":[]\x7d\n```") "image/jpeg" []
      = .ok (Json.obj [("items", Json.arr [])])
    ∧ parse_receipt (fun _ => .ok ()) (.ok "\x7b\"a\":1\x7d") "image/jpeg" []
      = .ok (Json.obj [("a", Json.num "1")]) :=
  claim_C1 (fun _ => .ok ()) [] "image/jpeg" "\x7b\"a\":1\x7d"
    (Json.obj [("a", Json.num "1")]) rfl rfl rfl

/-- C2: when the normalized upstream text is not parseable as JSON,
`parse_receipt` fails with a malformed-response `ValueError` whose message
wraps the raw decode error; it does not return any default result. -/
theorem claim_C2 (pilVerify : List Nat → Except String Unit) (img : List Nat)
    (ct : String) (t e : String)
    (hpil : pilVerify img = .ok ())
    (hparse : json_loads (geminiNormalize t.data) = .error e) :
    parse_receipt pilVerify (.ok t) ct img = .error (.malformedResponse e)
    ∧ (GeminiError.malformedResponse e).message
        = "Failed to parse Gemini response as JSON: " ++ e := by
  refine ⟨?_, rfl⟩
  simp only [parse_receipt, hpil, hparse]

/-- C2 witness: a prose refusal is rejected as malformed, with the decode
error in the message. -/
theorem claim_C2_witness :
    parse_receipt (fun _ => .ok ()) (.ok "Sorry, I cannot read this receipt.") "image/jpeg" []
      = .error (.malformedResponse "Expecting value")
    ∧ (GeminiError.malformedResponse "Expecting value").message
        = "Failed to parse Gemini response as JSON: " ++ "Expecting value" :=
  claim_C2 (fun _ => .ok ()) [] "image/jpeg" "Sorry, I cannot read this receipt."
    "Expecting value" rfl rfl

/-- C3: when the bytes do not verify as an image, `parse_receipt` fails with
an invalid-image `ValueError` carrying the decoder's reason, whatever the
upstream oracle would have answered (the API is never consulted). -/
theorem claim_C3 (pilVerify : List Nat → Except String Unit) (img : List Nat)
    (reason : String) (hpil : pilVerify img = .error reason) :
    ∀ (upstream : Except String String) (ct : String),
      parse_receipt pilVerify upstream ct img = .error (.invalidImage reason)
      ∧ (GeminiError.invalidImage reason).message = "Invalid image file: " ++ reason := by
  intro upstream ct
  refine ⟨?_, rfl⟩
  simp only [parse_receipt, hpil]

/-- C3 witness: one undecodable payload, two different upstream behaviours,
the same invalid-image failure. -/
theorem claim_C3_witness :
    parse_receipt (fun _ => .error "cannot identify image file") (.ok "\x7b\x7d")
      "image/png" [0, 1] = .error (.invalidImage "cannot identify image file")
    ∧ parse_receipt (fun _ => .error "cannot identify image file") (.error "transport down")
      "image/png" [0, 1] = .error (.invalidImage "cannot identify image file") :=
  ⟨(claim_C3 (fun _ => .error "cannot identify image file") [0, 1]
      "cannot identify image file" rfl (.ok "\x7b\x7d") "image/png").1,
   (claim_C3 (fun _ => .error "cannot identify image file") [0, 1]
      "cannot identify image file" rfl (.error "transport down") "image/png").1⟩

/-- C4: a request whose declared content type is outside the allowed set is
rejected with a 400 whose detail lists the allowed types, independently of
the body and of both oracles (nothing downstream runs); a request declaring
one of the four allowed types passes the content-type check and proceeds to
the upload handler. -/
theorem claim_C4 (ct : String) (pilVerify : List Nat → Except String Unit)
    (upstream : Except String String) (fileBytes : List Nat) :
    (ct ∉ allowed_types →
      scan_receipt pilVerify upstream ct fileBytes = .failure 400 invalidTypeDetail)
    ∧ (ct ∈ allowed_types →
      scan_receipt pilVerify upstream ct fileBytes
        = handleUpload pilVerify upstream ct fileBytes) := by
  constructor
  · intro h
    simp only [scan_receipt, if_neg h]
  · intro h
    simp only [scan_receipt, if_pos h]

/-- C4 witness: a text upload is rejected up front; a PNG upload reaches the
handler. -/
theorem claim_C4_witness :
    scan_receipt (fun _ => .ok ()) (.ok "\x7b\x7d") "text/plain" []
      = .failure 400 invalidTypeDetail
    ∧ scan_receipt (fun _ => .ok ()) (.ok "\x7b\x7d") "image/png" []
      = handleUpload (fun _ => .ok ()) (.ok "\x7b\x7d") "image/png" [] :=
  ⟨(claim_C4 "text/plain" (fun _ => .ok ()) (.ok "\x7b\x7d") []).1 (by decide),
   (claim_C4 "image/png" (fun _ => .ok ()) (.ok "\x7b\x7d") []).2 (by decide)⟩

/-- C5: the endpoint maps the value errors (invalid image, malformed
response) to a 400 carrying the exception message and the upstream error to
a 500 carrying the generic wrapped message, and the three resulting
responses are pairwise distinct whatever the causes, so the boundary layer
keeps the kinds apart. -/
theorem claim_C5 (pilVerify : List Nat → Except String Unit)
    (upstream : Except String String) (ct : String) (fileBytes : List Nat)
    (m : String) (hct : ct ∈ allowed_types) :
    (parse_receipt pilVerify upstream ct fileBytes = .error (.invalidImage m) →
      scan_receipt pilVerify upstream ct fileBytes
        = .failure 400 ("Invalid image file: " ++ m))
    ∧ (parse_receipt pilVerify upstream ct fileBytes = .error (.malformedResponse m) →
      scan_receipt pilVerify upstream ct fileBytes
        = .failure 400 ("Failed to parse Gemini response as JSON: " ++ m))
    ∧ (parse_receipt pilVerify upstream ct fileBytes = .error (.upstreamError m) →
      scan_receipt pilVerify upstream ct fileBytes
        = .failure 500 ("Failed to process receipt: " ++ ("Gemini API error: " ++ m)))
    ∧ (∀ m2 : String,
        ScanResponse.failure 400 ("Invalid image file: " ++ m)
          ≠ ScanResponse.failure 400 ("Failed to parse Gemini response as JSON: " ++ m2)
        ∧ ScanResponse.failure 400 ("Invalid image file: " ++ m)
          ≠ ScanResponse.failure 500
              ("Failed to process receipt: " ++ ("Gemini API error: " ++ m2))
        ∧ ScanResponse.failure 400 ("Failed to parse Gemini response as JSON: " ++ m)
          ≠ ScanResponse.failure 500
              ("Failed to process receipt: " ++ ("Gemini API error: " ++ m2))) := by
  refine ⟨?_, ?_, ?_, ?_⟩
  · intro h
    simp only [scan_receipt, if_pos hct, handleUpload, h, GeminiError.isValueError,
      GeminiError.message, if_true]
  · intro h
    simp only [scan_receipt, if_pos hct, handleUpload, h, GeminiError.isValueError,
      GeminiError.message, if_true]
  · intro h
    simp only [scan_receipt, if_pos hct, handleUpload, h, GeminiError.isValueError,
      GeminiError.message, Bool.false_eq_true, if_false]
  · intro m2
    refine ⟨?_, ?_, ?_⟩
    · intro h
      exact msg_invalid_ne_malformed m m2 ((ScanResponse.failure.injEq _ _ _ _).mp h).2
    · intro h
      exact absurd ((ScanResponse.failure.injEq _ _ _ _).mp h).1 (by decide)
    · intro h
      exact absurd ((ScanResponse.failure.injEq _ _ _ _).mp h).1 (by decide)

/-- C5 witness: the three failure kinds produced by concrete runs and their
mapped responses, plus an instance of the distinctness clause. -/
theorem claim_C5_witness :
    scan_receipt (fun _ => .error "bad header") (.ok "\x7b\x7d") "image/jpeg" [7]
      = .failure 400 ("Invalid image file: " ++ "bad header")
    ∧ scan_receipt (fun _ => .ok ()) (.ok "not json") "image/jpeg" [7]
      = .failure 400 ("Failed to parse Gemini response as JSON: " ++ "Expecting value")
    ∧ scan_receipt (fun _ => .ok ()) (.error "quota exceeded") "image/jpeg" [7]
      = .failure 500 ("Failed to process receipt: " ++ ("Gemini API error: " ++ "quota exceeded"))
    ∧ (ScanResponse.failure 400 ("Invalid image file: " ++ "x")
        ≠ ScanResponse.failure 400 ("Failed to parse Gemini response as JSON: " ++ "y")
      ∧ ScanResponse.failure 400 ("Invalid image file: " ++ "x")
        ≠ ScanResponse.failure 500 ("Failed to process receipt: " ++ ("Gemini API error: " ++ "y"))
      ∧ ScanResponse.failure 400 ("Failed to parse Gemini response as JSON: " ++ "x")
        ≠ ScanResponse.failure 500
            ("Failed to process receipt: " ++ ("Gemini API error: " ++ "y"))) :=
  ⟨(claim_C5 (fun _ => .error "bad header") (.ok "\x7b\x7d") "image/jpeg" [7] "bad header"
      (by decide)).1 rfl,
   ((claim_C5 (fun _ => .ok ()) (.ok "not json") "image/jpeg" [7] "Expecting value"
      (by decide)).2.1 rfl),
   ((claim_C5 (fun _ => .ok ()) (.error "quota exceeded") "image/jpeg" [7] "quota exceeded"
      (by decide)).2.2.1 rfl),
   ((claim_C5 (fun _ => .ok ()) (.ok "\x7b\x7d") "image/jpeg" [7] "x" (by decide)).2.2.2 "y")⟩

/-- C6: on success the endpoint returns exactly the object the service
parsed, with no transformation and no schema validation beyond structural
JSON validity: any JSON object the stubbed upstream yields comes back
verbatim as the 200 body. -/
theorem claim_C6 (pilVerify : List Nat → Except String Unit) (fileBytes : List Nat)
    (ct : String) (t : String) (j : Json)
    (hct : ct ∈ allowed_types) (hpil : pilVerify fileBytes = .ok ())
    (hparse : json_loads (geminiNormalize t.data) = .ok j) :
    scan_receipt pilVerify (.ok t) ct fileBytes = .success j := by
  simp only [scan_receipt, if_pos hct, handleUpload, parse_receipt, hpil, hparse]

/-- C6 witness: an upstream object that matches no field of the ScanResult
schema is still returned verbatim. -/
theorem claim_C6_witness :
    scan_receipt (fun _ => .ok ()) (.ok "\x7b\"totally\":\"unrelated\"\x7d") "image/png" [1]
      = .success (Json.obj [("totally", Json.str "unrelated")]) :=
  claim_C6 (fun _ => .ok ()) [1] "image/png" "\x7b\"totally\":\"unrelated\"\x7d"
    (Json.obj [("totally", Json.str "unrelated")]) (by decide) rfl rfl

/-- C7: the endpoint is deterministic and stateless across calls: running the
same request twice in sequence through the process state (the settings
cache, the only cross-call state) yields the same response both times, and
the state is unchanged after the first call populates the cache. -/
theorem claim_C7 (env osEnv : List (String × String))
    (pilVerify : List Nat → Except String Unit)
    (stub : String → String → List Nat → Except String String)
    (cache : Option Settings) (ct : String) (fileBytes : List Nat)
    (r1 r2 : ScanResponse) (c1 c2 : Option Settings)
    (h1 : scanStateful env osEnv pilVerify stub cache ct fileBytes = .ok (r1, c1))
    (h2 : scanStateful env osEnv pilVerify stub c1 ct fileBytes = .ok (r2, c2)) :
    r1 = r2 ∧ c2 = c1 := by
  cases cache with
  | some s =>
    simp only [scanStateful, get_settings, Except.ok.injEq, Prod.mk.injEq] at h1
    obtain ⟨hr1, hc1⟩ := h1
    subst hc1
    simp only [scanStateful, get_settings, Except.ok.injEq, Prod.mk.injEq] at h2
    obtain ⟨hr2, hc2⟩ := h2
    exact ⟨hr1 ▸ hr2 ▸ rfl, hc2.symm⟩
  | none =>
    cases hb : buildSettings env with
    | error e =>
      simp only [scanStateful, get_settings, hb] at h1
      exact Except.noConfusion h1
    | ok s =>
      simp only [scanStateful, get_settings, hb, Except.ok.injEq, Prod.mk.injEq] at h1
      obtain ⟨hr1, hc1⟩ := h1
      subst hc1
      simp only [scanStateful, get_settings, Except.ok.injEq, Prod.mk.injEq] at h2
      obtain ⟨hr2, hc2⟩ := h2
      exact ⟨hr1 ▸ hr2 ▸ rfl, hc2.symm⟩

/-- C7 witness: two successive identical requests from a cold cache produce
the same response, with the cache populated once. -/
theorem claim_C7_witness :
    ScanResponse.success (Json.obj []) = ScanResponse.success (Json.obj [])
    ∧ some defaultSettings = some defaultSettings :=
  claim_C7 [] [] (fun _ => .ok ()) (fun _ _ _ => .ok "\x7b\x7d") none "image/png" []
    (ScanResponse.success (Json.obj [])) (ScanResponse.success (Json.obj []))
    (some defaultSettings) (some defaultSettings) rfl rfl

/-- C8: constructing the settings from an environment with none of the
recognized variables set (any unrecognized variables are ignored) yields the
documented defaults rather than failing, and any later access with a
populated cache returns the identical instance without consulting the
environment at all. -/
theorem claim_C8 (env env2 : List (String × String)) (s : Settings)
    (habs : ∀ n ∈ recognizedNames, lookupEnvCI env n = none) :
    get_settings none env = .ok (defaultSettings, some defaultSettings)
    ∧ get_settings (some s) env2 = .ok (s, some s) := by
  constructor
  · have hk := habs "gemini_api_key" (by simp [recognizedNames])
    have ha := habs "app_name" (by simp [recognizedNames])
    have hd := habs "debug" (by simp [recognizedNames])
    have hp := habs "port" (by simp [recognizedNames])
    simp only [get_settings, buildSettings, hk, ha, hd, hp, Option.getD_none]
    rfl
  · rfl

/-- C8 witness: an Expo frontend variable is ignored, defaults apply; the
second access ignores even a changed PORT in the environment. -/
theorem claim_C8_witness :
    get_settings none [("EXPO_PUBLIC_API_URL", "http://x")]
      = .ok (defaultSettings, some defaultSettings)
    ∧ get_settings (some defaultSettings) [("PORT", "9999")]
      = .ok (defaultSettings, some defaultSettings) :=
  claim_C8 [("EXPO_PUBLIC_API_URL", "http://x")] [("PORT", "9999")] defaultSettings
    (by decide)

/-- C9: a trimmed response starting with three backticks loses its first and
its last line unconditionally - even with no closing fence the final content
line is discarded - and a single-line fenced response normalizes to the
empty string, so parsing fails with the malformed-response error. -/
theorem claim_C9 :
    (∀ (first last : List Char) (mid : List (List Char)),
      startsWithFence first = true → '\n' ∉ first →
      (∀ l ∈ mid, '\n' ∉ l) → '\n' ∉ last →
      pyStrip (joinNL (first :: (mid ++ [last]))) = joinNL (first :: (mid ++ [last])) →
      geminiNormalize (joinNL (first :: (mid ++ [last]))) = joinNL mid)
    ∧ (∀ (cs : List Char) (pilVerify : List Nat → Except String Unit)
        (img : List Nat) (ct : String),
      startsWithFence cs = true → '\n' ∉ cs → pyStrip cs = cs →
      pilVerify img = .ok () →
      parse_receipt pilVerify (.ok (String.mk cs)) ct img
        = .error (.malformedResponse "Expecting value")) := by
  constructor
  · exact fun first last mid hf h1 h2 h3 hstrip =>
      geminiNormalize_fenced first last mid hf h1 h2 h3 hstrip
  · intro cs pilVerify img ct hf hnl hstrip hpil
    have hnorm : geminiNormalize cs = [] := by
      simp only [geminiNormalize]
      rw [hstrip, if_pos hf, splitNL_of_no_newline cs hnl]
      rfl
    simp only [parse_receipt, hpil]
    rw [hnorm]
    rfl

/-- C9 witness: a fenced response whose closing fence is missing loses its
final content line; a bare single fence line fails as malformed. -/
theorem claim_C9_witness :
    geminiNormalize (joinNL ("```json".data :: ("\x7b\"items\":[]\x7d".data :: ([] : List (List Char)) ++ ["truncated".data])))
      = joinNL ("\x7b\"items\":[]\x7d".data :: ([] : List (List Char)))
    ∧ parse_receipt (fun _ => .ok ()) (.ok (String.mk "```".data)) "image/jpeg" []
      = .error (.malformedResponse "Expecting value") :=
  ⟨claim_C9.1 "```json".data "truncated".data ("\x7b\"items\":[]\x7d".data :: ([] : List (List Char)))
      rfl (by decide) (by decide) (by decide) rfl,
   claim_C9.2 "```".data (fun _ => .ok ()) [] "image/jpeg" rfl (by decide) rfl rfl⟩

/-- C10: the client's API-key resolution uses the configured setting when
non-empty; an empty configured setting falls back to the GEMINI_API_KEY
process environment variable, and only when that is absent does the key
resolve to the empty string. -/
theorem claim_C10 (osEnv : List (String × String)) (k : String) :
    initApiKey "" osEnv = (osEnvGet osEnv "GEMINI_API_KEY").getD ""
    ∧ (osEnvGet osEnv "GEMINI_API_KEY" = none → initApiKey "" osEnv = "")
    ∧ (k ≠ "" → initApiKey k osEnv = k) := by
  refine ⟨rfl, ?_, ?_⟩
  · intro h
    simp [initApiKey, pyOrStr, h]
  · intro h
    simp [initApiKey, pyOrStr, h]

/-- C10 witness: fallback to the environment variable, empty key when both
are absent, and precedence of a non-empty configured setting. -/
theorem claim_C10_witness :
    initApiKey "" [("GEMINI_API_KEY", "sk-test")]
      = (osEnvGet [("GEMINI_API_KEY", "sk-test")] "GEMINI_API_KEY").getD ""
    ∧ initApiKey "" [] = ""
    ∧ initApiKey "configured" [("GEMINI_API_KEY", "sk-test")] = "configured" :=
  ⟨(claim_C10 [("GEMINI_API_KEY", "sk-test")] "configured").1,
   (claim_C10 ([] : List (String × String)) "x").2.1 rfl,
   (claim_C10 [("GEMINI_API_KEY", "sk-test")] "configured").2.2 (by decide)⟩
